import Mathlib

/-!
Verification development for the Bulgarian legal search repository
(`relevancy_scoring.py` and `enhanced_legal_tools.py`).

The Python code is shallowly embedded:

* Python strings are `String`; `str.lower`, `str.split`, `str.count`,
  `str.replace` and the `in` operator are modelled character-by-character
  on `List Char` with structural recursion, so that they evaluate by
  kernel reduction on concrete inputs.
* Python floats are modelled as `ℝ` (exact real arithmetic; the decimal
  constants appearing in the source, such as `1.8`, `0.7`, `0.30`, are
  modelled by the corresponding exact rationals).  Configuration tables
  that feed comparisons are kept in `ℚ` so they stay computable and are
  cast to `ℝ` where the scoring arithmetic uses them.
* The scorer is modelled in its no-embedding-provider configuration
  (`openai_client is None`, the configuration used by the orchestrator),
  so `calculate_semantic_similarity` goes through the TF-IDF fallback;
  the `try/except` fallback ladder becomes explicit branching on the
  exact failure condition (`sklearn` raises on an empty vocabulary).
* External collaborators of the orchestrator (LLM query expansion, web
  search, page fetch) are oracle parameters of the model.
-/

set_option maxRecDepth 1000000

namespace BgLegal

/-! ### Python string primitives -/

/-- `str.lower` for the character ranges exercised by this code base:
ASCII (via `Char.toLower`) and the Cyrillic block А–Я / Ё. -/
def lowerChar (c : Char) : Char :=
  if 0x410 ≤ c.toNat ∧ c.toNat ≤ 0x42F then Char.ofNat (c.toNat + 0x20)
  else if c.toNat = 0x401 then Char.ofNat 0x451
  else c.toLower

/-- `str.lower`. -/
def pyLower (s : String) : String := String.mk (s.data.map lowerChar)

/-- Split a character list into the (possibly empty) runs delimited by
characters satisfying `p`. -/
def splitRuns (p : Char → Bool) : List Char → List (List Char)
  | [] => [[]]
  | c :: rest =>
    let r := splitRuns p rest
    if p c then [] :: r
    else match r with
      | [] => [[c]]
      | h :: t => (c :: h) :: t

/-- `str.split()` with no argument: split on whitespace runs, dropping
empty pieces. -/
def pySplit (s : String) : List String :=
  ((splitRuns Char.isWhitespace s.data).filter (fun t => t ≠ [])).map String.mk

/-- Non-overlapping left-to-right substring count, scanning with a skip
counter so the recursion is structural (`skip` consumes the remainder of
the previous match). -/
def countSubAux (needle : List Char) : ℕ → List Char → ℕ
  | _+1, [] => 0
  | 0, [] => 0
  | s+1, _ :: rest => countSubAux needle s rest
  | 0, c :: rest =>
    if needle.isPrefixOf (c :: rest) then 1 + countSubAux needle (needle.length - 1) rest
    else countSubAux needle 0 rest

/-- `hay.count(needle)` (Python semantics: non-overlapping occurrences;
an empty needle counts `len(hay) + 1`). -/
def pyCount (hay needle : String) : ℕ :=
  if needle.data = [] then hay.data.length + 1 else countSubAux needle.data 0 hay.data

/-- Scan for a substring occurrence. -/
def containsAux (needle : List Char) : List Char → Bool
  | [] => false
  | c :: rest => needle.isPrefixOf (c :: rest) || containsAux needle rest

/-- Python `needle in hay`. -/
def pyContains (hay needle : String) : Bool :=
  if needle.data = [] then true else containsAux needle.data hay.data

/-- `str.replace` scanner: replaces non-overlapping occurrences
left-to-right; `skip` consumes the remainder of the previous match. -/
def replaceSubAux (needle repl : List Char) : ℕ → List Char → List Char
  | _+1, [] => []
  | 0, [] => []
  | s+1, _ :: rest => replaceSubAux needle repl s rest
  | 0, c :: rest =>
    if needle.isPrefixOf (c :: rest) then repl ++ replaceSubAux needle repl (needle.length - 1) rest
    else c :: replaceSubAux needle repl 0 rest

/-- `hay.replace(needle, repl)` (the code only replaces non-empty
needles; an empty needle leaves the string unchanged here). -/
def pyReplace (hay needle repl : String) : String :=
  if needle.data = [] then hay else String.mk (replaceSubAux needle.data repl.data 0 hay.data)

/-- Regex `\w` for the character ranges exercised by this code base:
ASCII alphanumerics, underscore, and the Cyrillic block. -/
def isWordChar (c : Char) : Bool :=
  c.isAlphanum || c == '_' || (0x400 ≤ c.toNat && c.toNat ≤ 0x4FF)

/-- Is there a regex word boundary between two adjacent positions whose
characters are `a` and `b` (`none` = beyond the ends of the string)? -/
def wordBoundaryBetween (a b : Option Char) : Bool :=
  ((a.map isWordChar).getD false) != ((b.map isWordChar).getD false)

/-- Scanner for `re.sub(r'\b' + needle + r'\b', repl, s)`: a match needs
the needle at the position plus a word boundary on each side, measured
on the original characters; scanning resumes after the matched segment
(a positive `skip` means that many original characters of the current
match are still to be consumed). -/
def replaceWordAux (needle repl : List Char) : Option Char → ℕ → List Char → List Char
  | _, _, [] => []
  | _, s+1, c :: rest => replaceWordAux needle repl (some c) s rest
  | prev, 0, c :: rest =>
    if needle.isPrefixOf (c :: rest)
        && wordBoundaryBetween prev (some c)
        && wordBoundaryBetween needle.getLast? (((c :: rest).drop needle.length).head?) then
      repl ++ replaceWordAux needle repl (some c) (needle.length - 1) rest
    else
      c :: replaceWordAux needle repl (some c) 0 rest

/-- `re.sub` of a word-bounded literal pattern (used for the legal
abbreviation expansions `\bгк\b` etc.). -/
def pyReplaceWord (hay needle repl : String) : String :=
  if needle.data = [] then hay
  else String.mk (replaceWordAux needle.data repl.data none 0 hay.data)

/-! ### Data model: `SearchResult` (relevancy_scoring.py)

Only the fields read or written by the scoring pipeline are modelled.
`domain_authority_score` is the attribute `score_and_rank` assigns
dynamically (the dataclass itself declares `domain_authority`). -/

structure SearchResult where
  url : String
  title : String
  snippet : String
  content : String := ""
  bm25_score : ℝ := 0
  semantic_score : ℝ := 0
  legal_context_score : ℝ := 0
  domain_authority_score : ℝ := 0
  combined_score : ℝ := 0
  relevancy_probability : ℝ := 0
  confidence_score : ℝ := 0
  legal_domain : String := "unknown"
  legal_relevance : ℝ := 0

/-! ### Scorer configuration (`BulgarianLegalRelevancyScorer.__init__`) -/

/-- `self.legal_domains`: name, keyword list, weight (weights kept in `ℚ`
so the table stays computable; cast to `ℝ` where used). -/
def legalDomains : List (String × List String × ℚ) :=
  [("гражданско_право",
    (["обезщетение", "договор", "собственост", "наследство", "семейство",
      "развод", "алименти", "данъци"], 1.0)),
   ("наказателно_право",
    (["престъпление", "наказание", "затвор", "глоба", "убийство",
      "кража", "измама", "дрога"], 1.0)),
   ("административно_право",
    (["административен", "лиценз", "разрешение", "наредба", "постановление",
      "министерство", "регулация"], 0.6)),
   ("трудово_право",
    (["работа", "трудов", "заплата", "отпуска", "уволнение",
      "договор", "осигуровка", "пенсия"], 1.0)),
   ("процесуално_право",
    (["съд", "дело", "процес", "съдебен", "апелация",
      "касация", "решение", "призовка"], 0.9)),
   ("медицинско_право",
    (["медицински", "лечение", "болница", "лекар", "здравеопазване",
      "увреждане", "инвалидност"], 1.0))]

/-- `self.domain_authority` (insertion order preserved). -/
def domainAuthorityTable : List (String × ℚ) :=
  [("ciela.net", 0.95), ("apis.bg", 0.90), ("lakorda.com", 0.75),
   ("justice.government.bg", 0.85), ("vks.bg", 0.80), ("vss.bg", 0.80)]

/-- `self.bm25_k1 = 1.8`. -/
noncomputable def bm25K1 : ℝ := 1.8

/-- `self.bm25_b = 0.7`. -/
noncomputable def bm25B : ℝ := 0.7

/-! ### `identify_legal_domain` -/

/-- Score of one legal domain for a (lowercased) text: accumulate
`log(1 + occurrences) * weight` per matched keyword, then a multi-match
bonus `*(1 + 0.1 * matches)` when more than one keyword matched. -/
noncomputable def domainScore (textLower : String) (keywords : List String) (weight : ℝ) : ℝ :=
  let base := (keywords.map (fun kw =>
    if pyContains textLower kw then Real.log (1 + (pyCount textLower kw : ℝ)) * weight
    else 0)).sum
  let keywordMatches := (keywords.filter (fun kw => pyContains textLower kw)).length
  if 1 < keywordMatches then base * (1 + 0.1 * (keywordMatches : ℝ)) else base

/-- `max` of a nonempty list of scores (Python `max(values)`); the `[]`
case is unreachable because the domain table is static and nonempty. -/
noncomputable def listMaxR : List ℝ → ℝ
  | [] => 0
  | x :: xs => xs.foldl max x

/-- First maximal entry of a nonempty association list: Python
`max(d, key=d.get)` keeps the earliest key on ties, so the fold replaces
the accumulator only on strictly greater scores. -/
noncomputable def pickFirstMax : List (String × ℝ) → String × ℝ
  | [] => ("unknown", 0)
  | x :: xs => xs.foldl (fun acc p => if acc.2 < p.2 then p else acc) x

open Classical in
/-- `identify_legal_domain`: returns the best-matching legal domain and
a confidence `min(score / 10, 1)`; `("unknown", 0)` when nothing
matches. -/
noncomputable def identifyLegalDomain (text : String) : String × ℝ :=
  let textLower := pyLower text
  let domainScores := legalDomains.map (fun d => (d.1, domainScore textLower d.2.1 (d.2.2 : ℝ)))
  if listMaxR (domainScores.map (·.2)) = 0 then ("unknown", 0)
  else
    let best := pickFirstMax domainScores
    (best.1, min (best.2 / 10) 1)

/-! ### The scorer's `preprocess_query` -/

/-- Typo-correction table of `BulgarianLegalRelevancyScorer.preprocess_query`. -/
def scorerTypos : List (String × String) :=
  [("обещетение", "обезщетение"), ("насказание", "наказание"), ("същта", "същата"),
   ("връка", "връзка"), ("амога", "мога"), ("намам", "нямам")]

/-- Abbreviation-expansion table (`re.sub(r'\b' + abbrev + r'\b', ...)`). -/
def scorerExpansions : List (String × String) :=
  [("гк", "граждански кодекс"), ("нк", "наказателен кодекс"),
   ("апк", "административнопроцесуален кодекс"), ("тк", "трудов кодекс")]

/-- `BulgarianLegalRelevancyScorer.preprocess_query`: lowercase, fix
typos, expand word-bounded abbreviations. -/
def preprocessQueryScorer (query : String) : String :=
  let processed := pyLower query
  let processed := scorerTypos.foldl (fun s tc => pyReplace s tc.1 tc.2) processed
  scorerExpansions.foldl (fun s ae => pyReplaceWord s ae.1 ae.2) processed

/-! ### `calculate_bm25_score` -/

/-- `calculate_bm25_score`: per query term with positive term frequency,
`idf * tf*(k1+1) / (tf + k1*(1 - b + b*(docLength/avgDocLength)))` with
the single-document `idf = log((1 + avgDocLength) / (1 + tf))`. -/
noncomputable def calculateBm25Score (queryTerms : List String) (documentText : String)
    (avgDocLength : ℝ) : ℝ :=
  let docTerms := pySplit (pyLower documentText)
  let docLength := docTerms.length
  (queryTerms.map (fun term =>
    let tf := docTerms.count (pyLower term)
    if 0 < tf then
      let idf := Real.log ((1 + avgDocLength) / (1 + (tf : ℝ)))
      let numer := (tf : ℝ) * (bm25K1 + 1)
      let denom := (tf : ℝ) + bm25K1 * (1 - bm25B + bm25B * ((docLength : ℝ) / avgDocLength))
      idf * (numer / denom)
    else 0)).sum

/-! ### `calculate_semantic_similarity`

Modelled in the no-embedding-provider configuration, so the method is the
TF-IDF cosine of the two texts (the fallback `TfidfVectorizer(ngram_range
=(1,2), min_df=1, max_df=1.0, lowercase=True)` built fresh per pair),
falling back to token overlap exactly when the vectorizer raises — which
happens iff neither text yields any token (sklearn's "empty vocabulary").
The vectorizer's row-wise l2 normalization cancels inside
`cosine_similarity`, so the cosine is computed on the raw tf·idf rows;
`cosine_similarity` yields 0 when a row has zero norm. -/

/-- sklearn's default token pattern (word runs of length ≥ 2) on the
lowercased text. -/
def skTokens (s : String) : List String :=
  ((splitRuns (fun c => !isWordChar c) (pyLower s).data).map String.mk).filter
    (fun t => 2 ≤ t.length)

/-- Features with `ngram_range=(1,2)`: unigrams plus space-joined
bigrams. -/
def ngramFeatures (s : String) : List String :=
  let t := skTokens s
  t ++ (t.zip t.tail).map (fun p => p.1 ++ " " ++ p.2)

/-- The fitted vocabulary over the two-document corpus. -/
def tfidfVocab (q d : String) : List String := (ngramFeatures q ++ ngramFeatures d).dedup

/-- Smoothed idf over the two-document corpus:
`log((1 + n)/(1 + df)) + 1` with `n = 2`. -/
noncomputable def tfidfIdf (q d t : String) : ℝ :=
  let df := (if t ∈ ngramFeatures q then 1 else 0) + (if t ∈ ngramFeatures d then 1 else 0)
  Real.log (3 / (1 + (df : ℕ))) + 1

/-- One entry of a document's (unnormalized) tf·idf row. -/
noncomputable def tfidfEntry (q d doc t : String) : ℝ :=
  ((ngramFeatures doc).count t : ℝ) * tfidfIdf q d t

/-- Squared l2 norm of a document's tf·idf row over the vocabulary. -/
noncomputable def tfidfNormSq (q d doc : String) : ℝ :=
  ∑ i ∈ Finset.range (tfidfVocab q d).length,
    (tfidfEntry q d doc ((tfidfVocab q d).getD i "")) ^ 2

/-- Inner product of the two tf·idf rows over the vocabulary. -/
noncomputable def tfidfDot (q d : String) : ℝ :=
  ∑ i ∈ Finset.range (tfidfVocab q d).length,
    tfidfEntry q d q ((tfidfVocab q d).getD i "") *
      tfidfEntry q d d ((tfidfVocab q d).getD i "")

open Classical in
/-- TF-IDF cosine similarity of the two texts (0 when either row is
zero, matching `cosine_similarity` on a zero-norm row). -/
noncomputable def tfidfCosine (q d : String) : ℝ :=
  if tfidfNormSq q d q = 0 ∨ tfidfNormSq q d d = 0 then 0
  else tfidfDot q d / (Real.sqrt (tfidfNormSq q d q) * Real.sqrt (tfidfNormSq q d d))

open Classical in
/-- The final fallback: word-set overlap `min(|q ∩ d| / |q|, 1)`, `0`
when either word set is empty. -/
noncomputable def tokenOverlapScore (q d : String) : ℝ :=
  let queryWords := (pySplit (pyLower q)).dedup
  let docWords := (pySplit (pyLower d)).dedup
  if queryWords ≠ [] ∧ docWords ≠ [] then
    min (((queryWords.filter (fun w => w ∈ docWords)).length : ℝ) / (queryWords.length : ℝ)) 1
  else 0

open Classical in
/-- `calculate_semantic_similarity` (no embedding provider): TF-IDF
cosine, with the token-overlap fallback exactly when the vectorizer
would raise on an empty vocabulary. -/
noncomputable def calculateSemanticSimilarity (query documentText : String) : ℝ :=
  if tfidfVocab query documentText = [] then tokenOverlapScore query documentText
  else tfidfCosine query documentText

/-! ### `calculate_domain_authority` -/

/-- The `for domain, score in ...: if domain in url: return score` loop. -/
def lookupDomainAuthority : List (String × ℚ) → String → ℚ
  | [], _ => 0.5
  | p :: rest, url => if pyContains url p.1 then p.2 else lookupDomainAuthority rest url

/-- `calculate_domain_authority` (kept in `ℚ`: the table holds exact
decimal constants, so the float comparisons are exact). -/
def calculateDomainAuthority (url : String) : ℚ :=
  lookupDomainAuthority domainAuthorityTable url

/-! ### `calculate_legal_context_score` -/

/-- The "personal legal" domains of `calculate_legal_context_score`. -/
def personalLegalDomains : List String :=
  ["гражданско_право", "наказателно_право", "трудово_право", "медицинско_право"]

open Classical in
/-- `calculate_legal_context_score`. -/
noncomputable def calculateLegalContextScore (query documentText : String) : ℝ :=
  let qd := identifyLegalDomain query
  let dd := identifyLegalDomain documentText
  if qd.1 = dd.1 ∧ qd.1 ≠ "unknown" then min (qd.2 * dd.2 * 2) 1
  else if qd.1 ∈ personalLegalDomains ∧ dd.1 = "административно_право" then 0.2
  else if qd.1 = "unknown" ∧ dd.1 ≠ "unknown" then dd.2 * 0.6
  else if qd.1 ≠ "unknown" ∧ dd.1 = "unknown" then qd.2 * 0.4
  else 0.3

/-! ### `score_and_rank` -/

/-- Python `result.content or result.snippet`. -/
def contentOrSnippet (r : SearchResult) : String :=
  if r.content = "" then r.snippet else r.content

/-- `len((result.content or result.snippet).split())`. -/
def docTokenCount (r : SearchResult) : ℕ := (pySplit (contentOrSnippet r)).length

open Classical in
/-- The batch `avg_doc_length` of `score_and_rank` (`1000` on an empty
batch, per the source's conditional expression). -/
noncomputable def avgDocLength (results : List SearchResult) : ℝ :=
  if results = [] then 1000
  else ((results.map docTokenCount).sum : ℝ) / (results.length : ℝ)

/-- `full_text = f"{result.title} {result.snippet} {result.content}"`. -/
def fullText (r : SearchResult) : String :=
  r.title ++ " " ++ r.snippet ++ " " ++ r.content

/-- The per-result scoring body of `score_and_rank`'s loop. -/
noncomputable def scoreResult (processedQuery : String) (queryTerms : List String)
    (avg : ℝ) (r : SearchResult) : SearchResult :=
  let ft := fullText r
  let bm25 := calculateBm25Score queryTerms ft avg
  let sem := calculateSemanticSimilarity processedQuery ft
  let legalContext := calculateLegalContextScore processedQuery ft
  let authority : ℝ := (calculateDomainAuthority r.url : ℝ)
  let titleBoost :=
    min (0.1 * ((queryTerms.filter (fun t => pyContains (pyLower r.title) t)).length : ℝ)) 0.5
  let combined := 0.30 * min (bm25 / 10) 1 + 0.25 * sem + 0.25 * legalContext
    + 0.10 * authority + 0.10 * titleBoost
  let ld := identifyLegalDomain ft
  { r with
    bm25_score := bm25
    semantic_score := sem
    legal_context_score := legalContext
    domain_authority_score := authority
    combined_score := combined
    relevancy_probability := combined
    legal_domain := ld.1
    legal_relevance := ld.2
    confidence_score := min (combined * 1.2) 1 }

/-- `scored_results.sort(key=lambda x: x.combined_score, reverse=True)`
(Python's sort is stable; insertion sort with `≥` on scores is the same
stable descending order). -/
noncomputable def rankSort (l : List SearchResult) : List SearchResult :=
  @List.insertionSort SearchResult (fun a b => b.combined_score ≤ a.combined_score)
    (Classical.decRel _) l

open Classical in
/-- `score_and_rank`. -/
noncomputable def scoreAndRank (query : String) (searchResults : List SearchResult) :
    List SearchResult :=
  if searchResults = [] then []
  else
    let processedQuery := preprocessQueryScorer query
    let queryTerms := pySplit processedQuery
    let avg := avgDocLength searchResults
    rankSort (searchResults.map (scoreResult processedQuery queryTerms avg))

/-! ### `enhanced_legal_tools.preprocess_query` -/

/-- Typo table of the tools-module `preprocess_query` (differs from the
scorer's table; no lowercasing here). -/
def toolsTypos : List (String × String) :=
  [("амога", "мога"), ("съща", "същата"), ("връка", "връзка"),
   ("обещетение", "обезщетение"), ("насказание", "наказание")]

/-- The importance-keyword allow-list (`important_words`). -/
def importantWords : List String :=
  ["обезщетение", "наказание", "счупване", "ръка", "сума",
   "помощ", "право", "закон", "съд"]

/-- Does a word match the allow-list (`any(keyword in word.lower() ...)`)? -/
def matchesImportant (w : String) : Bool :=
  importantWords.any (fun kw => pyContains (pyLower w) kw)

/-- `enhanced_legal_tools.preprocess_query`: fix typos; if the corrected
query has more than 15 words, keep the allow-listed words (at most 8,
re-joined with single spaces) unless none match. -/
def preprocessQueryTools (query : String) : String :=
  let cleanedQuery := toolsTypos.foldl (fun s tc => pyReplace s tc.1 tc.2) query
  let words := pySplit cleanedQuery
  if 15 < words.length then
    let legalKeywords := words.filter matchesImportant
    if legalKeywords ≠ [] then String.intercalate " " (legalKeywords.take 8)
    else cleanedQuery
  else cleanedQuery

/-- Reference definition built from the claim's wording: the corrected
query unchanged when it has at most 15 words or when no importance
keyword occurs in it; otherwise the order-preserving subsequence of its
allow-listed words capped at 8. -/
def specPreprocessTools (query : String) : String :=
  let corrected := toolsTypos.foldl (fun s tc => pyReplace s tc.1 tc.2) query
  let words := pySplit corrected
  let matching := words.filter matchesImportant
  if words.length ≤ 15 then corrected
  else if matching = [] then corrected
  else String.intercalate " " (matching.take 8)

/-! ### Adaptive result-set filtering (`enhanced_bulgarian_legal_search`)

The filter operates on the simplified dict results, whose
`relevancy_score` is a ratio of word-match counts; scores and thresholds
are exact decimals, so the float comparisons are modelled in `ℚ`. -/

/-- The adaptive threshold filter, |high| ≥ 10 → first 20 high-quality,
else |medium| ≥ 8 → first 15 medium-quality, else first 12 overall. -/
def resultSetFilter {α : Type} (score : α → ℚ) (scoredResults : List α) : List α :=
  let highQuality := scoredResults.filter (fun r => 0.6 ≤ score r)
  let mediumQuality := scoredResults.filter (fun r => 0.3 ≤ score r)
  if 10 ≤ highQuality.length then highQuality.take 20
  else if 8 ≤ mediumQuality.length then mediumQuality.take 15
  else scoredResults.take 12

/-- "Top k by score" for the reference definition: first `k` of the
stable descending sort. -/
def topByScore {α : Type} (score : α → ℚ) (k : ℕ) (l : List α) : List α :=
  (List.insertionSort (fun a b => score b ≤ score a) l).take k

/-- Reference definition built from the claim's wording: top 20 of the
`≥ 0.6` partition when it has at least 10 members, else top 15 of the
`≥ 0.3` partition when it has at least 8, else top 12 of the full sorted
list. -/
def specResultSetFilter {α : Type} (score : α → ℚ) (results : List α) : List α :=
  let highQuality := results.filter (fun r => 0.6 ≤ score r)
  let mediumQuality := results.filter (fun r => 0.3 ≤ score r)
  if 10 ≤ highQuality.length then topByScore score 20 highQuality
  else if 8 ≤ mediumQuality.length then topByScore score 15 mediumQuality
  else topByScore score 12 results

/-! ### The orchestrator (`enhanced_bulgarian_legal_search`)

The external collaborators are oracle parameters: `expansionOracle` is
the outcome of `intelligent_query_expansion` (`none` = the call raised),
`searchOracle` is `google_domain_search` (a failing or empty search is
the empty list), `fetchOracle` gives each raw result's
`extract_deep_content` text, and `refinementOracle` is the outcome of
`adaptive_query_refinement` (`none` = the call raised, which the source
catches and continues). The `ImportError` fallback scoring path is not
modelled (the scorer module is present). -/

/-- A raw search-engine result dict (`title` / `url` / `body`). -/
structure RawResult where
  url : String
  title : String
  body : String
deriving DecidableEq, Inhabited

/-- A raw result enriched with `enhanced_content` by the deep fetch. -/
structure EnhancedResult where
  raw : RawResult
  enhancedContent : String
deriving DecidableEq, Inhabited

/-- Conversion of an enhanced dict to a `SearchResult` for scoring
(matching the field mapping at the preliminary-scoring call site). -/
def toSearchResult (e : EnhancedResult) : SearchResult :=
  { url := e.raw.url, title := e.raw.title, snippet := e.raw.body,
    content := e.enhancedContent }

/-- Phase 1: expanded queries (falling back to `[query]` when expansion
raises or returns nothing), each searched with an evenly split budget. -/
def phase1Results (expansionOracle : Option (List String))
    (searchOracle : String → ℕ → List RawResult) (query : String) (maxResults : ℕ) :
    List RawResult :=
  let expandedQueries :=
    match expansionOracle with
    | some qs => if qs = [] then [query] else qs
    | none => [query]
  expandedQueries.flatMap (fun q => searchOracle q (maxResults / expandedQueries.length))

/-- Outcome of one orchestrator run: the accumulated enhanced results,
the preliminary average relevancy, and how many gap-filling refinement
rounds were attempted. -/
structure OrchestratorOutcome where
  enhancedResults : List EnhancedResult
  averageRelevancy : ℝ
  refinementAttempts : ℕ

open Classical in
/-- The phases of `enhanced_bulgarian_legal_search` up to and including
the gap-filling refinement round: deep-fetch the first `maxResults` raw
results, score them with `score_and_rank` (called with the original
query), and trigger the phase-3 refinement iff the average preliminary
relevancy is below 0.7 or fewer than `maxResults * 0.8` results
accumulated. When phase 1 finds nothing, the source falls back to one
basic search with the preprocessed query and never refines. -/
noncomputable def runEnhancedSearch (expansionOracle : Option (List String))
    (searchOracle : String → ℕ → List RawResult) (fetchOracle : RawResult → String)
    (refinementOracle : Option (List String)) (query : String) (maxResults : ℕ) :
    OrchestratorOutcome :=
  let allResults := phase1Results expansionOracle searchOracle query maxResults
  if allResults = [] then
    { enhancedResults :=
        (searchOracle (preprocessQueryTools query) maxResults).map (fun r => ⟨r, ""⟩)
      averageRelevancy := 0
      refinementAttempts := 0 }
  else
    let enhancedResults := (allResults.take maxResults).map (fun r => ⟨r, fetchOracle r⟩)
    let scoredResults := scoreAndRank query (enhancedResults.map toSearchResult)
    let preliminaryScores := scoredResults.map (·.relevancy_probability)
    let avgRelevancy :=
      if preliminaryScores = [] then 0
      else preliminaryScores.sum / (preliminaryScores.length : ℝ)
    if avgRelevancy < 0.7 ∨ (enhancedResults.length : ℝ) < (maxResults : ℝ) * 0.8 then
      let refinedQueries := refinementOracle.getD []
      let newResults := (refinedQueries.flatMap (fun q => searchOracle q (maxResults / 3))).map
        (fun r => (⟨r, fetchOracle r⟩ : EnhancedResult))
      { enhancedResults := enhancedResults ++ newResults
        averageRelevancy := avgRelevancy
        refinementAttempts := 1 }
    else
      { enhancedResults := enhancedResults
        averageRelevancy := avgRelevancy
        refinementAttempts := 0 }

/-! ### Reference definitions for the remaining refinement claims -/

/-- Arithmetic mean of a list of reals (`0/0 = 0` on the empty list). -/
noncomputable def listMeanR (l : List ℝ) : ℝ := l.sum / (l.length : ℝ)

/-- The claim's batch statistic: mean token count of
`title+snippet+content` per result. -/
noncomputable def specAvgDocLength (results : List SearchResult) : ℝ :=
  listMeanR (results.map (fun r => ((pySplit (fullText r)).length : ℝ)))

/-- Reference definition of the domain-authority lookup built from the
claim's wording: the weight of the first table entry whose domain name
occurs as a substring of the URL, else `0.5`. -/
def specDomainAuthority (url : String) : ℚ :=
  match domainAuthorityTable.find? (fun p => pyContains url p.1) with
  | some p => p.2
  | none => 0.5

/-- A batch member whose title+snippet+content token count (4) differs
from the token count of `content or snippet` (1). -/
noncomputable def c4Result : SearchResult :=
  { url := "u", title := "aa", snippet := "bb cc", content := "dd" }

/-- A query text confidently in civil law: seven of the eight civil-law
keywords, each once, nothing from any other domain. -/
def civilQueryText : String :=
  "обезщетение собственост наследство алименти данъци семейство развод"

/-- A document text confidently in administrative law: six of the seven
administrative-law keywords (omitting `разрешение`, which contains the
procedural keyword `решение`), each twice. -/
def adminDocText : String :=
  String.intercalate " " (List.replicate 2
    "административен лиценз наредба постановление министерство регулация")

/-- A plain unscored result used to witness the amended C1. -/
noncomputable def c1WitnessResult : SearchResult := { url := "u", title := "", snippet := "" }

/-- The snippet of the C1 counterexample: four single-letter tokens, 32
repetitions each (128 tokens). -/
def c1Snippet : String :=
  String.intercalate " " (List.replicate 32 "a" ++ List.replicate 32 "b"
    ++ List.replicate 32 "c" ++ List.replicate 32 "d")

/-- The C1 counterexample result: empty title (no title boost), the
repetitive snippet, and a one-token content, so the batch
`avgDocLength` is 1 while each query term's frequency in
`title+snippet+content` is 32. -/
noncomputable def c1Result : SearchResult :=
  { url := "http://x.test", title := "", snippet := c1Snippet, content := "zz" }

/-! ### Helper lemmas -/

lemma lookupDomainAuthority_eq_find (t : List (String × ℚ)) (url : String) :
    lookupDomainAuthority t url =
      (match t.find? (fun p => pyContains url p.1) with
       | some p => p.2
       | none => 0.5) := by
  induction t with
  | nil => rfl
  | cons p rest ih =>
    by_cases h : pyContains url p.1
    · simp [lookupDomainAuthority, List.find?_cons, h]
    · simp [lookupDomainAuthority, List.find?_cons, h, ih]

/-- Evaluation lemma for a single-term BM25 score. -/
lemma calculateBm25Score_single (term documentText : String) (avg : ℝ) :
    calculateBm25Score [term] documentText avg =
      (if 0 < (pySplit (pyLower documentText)).count (pyLower term) then
        Real.log ((1 + avg) / (1 + ((pySplit (pyLower documentText)).count (pyLower term) : ℝ))) *
          ((((pySplit (pyLower documentText)).count (pyLower term) : ℝ) * (bm25K1 + 1)) /
            (((pySplit (pyLower documentText)).count (pyLower term) : ℝ) +
              bm25K1 * (1 - bm25B + bm25B *
                (((pySplit (pyLower documentText)).length : ℝ) / avg))))
      else 0) := by
  unfold calculateBm25Score
  simp

/-! ### C10: domain authority lookup -/

/-- **C10.** `calculate_domain_authority` returns the weight of the first
table entry (in insertion order) whose domain name occurs as a substring
anywhere in the URL and `0.5` when none occurs; in particular a URL that
merely mentions a known domain in its query string gets that domain's
weight, and an unknown URL gets exactly `0.5`. -/
theorem C10_domain_authority :
    (∀ url, calculateDomainAuthority url = specDomainAuthority url) ∧
    calculateDomainAuthority "https://attacker.example/page?src=ciela.net" = 0.95 ∧
    calculateDomainAuthority "https://example.com/search?q=bulgaria" = 0.5 := by
  refine ⟨fun url => ?_, ?_, ?_⟩
  · rw [calculateDomainAuthority, specDomainAuthority, lookupDomainAuthority_eq_find]
  · have h1 : pyContains "https://attacker.example/page?src=ciela.net" "ciela.net" = true := by
      decide
    simp [calculateDomainAuthority, domainAuthorityTable, lookupDomainAuthority, h1]
  · have h1 : pyContains "https://example.com/search?q=bulgaria" "ciela.net" = false := by decide
    have h2 : pyContains "https://example.com/search?q=bulgaria" "apis.bg" = false := by decide
    have h3 : pyContains "https://example.com/search?q=bulgaria" "lakorda.com" = false := by
      decide
    have h4 : pyContains "https://example.com/search?q=bulgaria" "justice.government.bg"
        = false := by decide
    have h5 : pyContains "https://example.com/search?q=bulgaria" "vks.bg" = false := by decide
    have h6 : pyContains "https://example.com/search?q=bulgaria" "vss.bg" = false := by decide
    simp [calculateDomainAuthority, domainAuthorityTable, lookupDomainAuthority,
      h1, h2, h3, h4, h5, h6]

/-! ### C9: the tools-module query preprocessor -/

/-- **C9.** After typo correction, `preprocess_query` returns the
corrected query unchanged when it has at most 15 words or when no
importance keyword occurs in it, and otherwise the order-preserving
subsequence of its allow-listed words capped at 8 words. -/
theorem C9_preprocess_query :
    ∀ query, preprocessQueryTools query = specPreprocessTools query := by
  intro query
  unfold preprocessQueryTools specPreprocessTools
  dsimp only
  split_ifs <;> first
    | rfl
    | omega
    | tauto

/-! ### C6: adaptive result-set filtering -/

/-- **C6.** On input pre-sorted descending by score, the adaptive filter
agrees with the three-branch reference definition (top 20 of the `≥ 0.6`
partition when at least 10 qualify, else top 15 of the `≥ 0.3` partition
when at least 8 qualify, else top 12 of the full list); in particular 12
results all scoring 0.65 are returned in full, and 3 results scoring
0.5, 0.2, 0.1 are returned in full. -/
theorem C6_adaptive_filter :
    (∀ (α : Type) (score : α → ℚ) (results : List α),
        List.Sorted (fun a b => score b ≤ score a) results →
        resultSetFilter score results = specResultSetFilter score results) ∧
    resultSetFilter (id : ℚ → ℚ) (List.replicate 12 0.65) = List.replicate 12 0.65 ∧
    resultSetFilter (id : ℚ → ℚ) [0.5, 0.2, 0.1] = [0.5, 0.2, 0.1] := by
  refine ⟨fun α score results hsorted => ?_, ?_, ?_⟩
  · unfold resultSetFilter specResultSetFilter topByScore
    dsimp only
    split_ifs
    · rw [List.Sorted.insertionSort_eq (List.Pairwise.filter _ hsorted)]
    · rw [List.Sorted.insertionSort_eq (List.Pairwise.filter _ hsorted)]
    · rw [List.Sorted.insertionSort_eq hsorted]
  · norm_num [resultSetFilter, List.replicate_succ, List.filter_cons]
  · norm_num [resultSetFilter, List.filter_cons]

/-- Witness for C6 at a concrete sorted input. -/
theorem C6_adaptive_filter_witness :
    List.Sorted (fun a b : ℚ => id b ≤ id a) [0.7, 0.4] ∧
    resultSetFilter (id : ℚ → ℚ) [0.7, 0.4] = specResultSetFilter (id : ℚ → ℚ) [0.7, 0.4] :=
  ⟨by norm_num [List.sorted_cons], C6_adaptive_filter.1 ℚ id [0.7, 0.4]
    (by norm_num [List.sorted_cons])⟩

/-! ### C2: nonnegativity of the BM25 score -/

/-- **C2 counterexample.** The claim "`calculate_bm25_score ≥ 0` for
every nonempty term list, document, and positive `avgDocLength`" fails:
with query term `"aa"`, document `"aa aa"` and `avgDocLength = 1`, the
term frequency 2 exceeds the average document length, the idf factor
`log(2/3)` is negative, and the score is negative. -/
theorem C2_counterexample : calculateBm25Score ["aa"] "aa aa" 1 < 0 := by
  have hcount : (pySplit (pyLower "aa aa")).count (pyLower "aa") = 2 := by decide
  have hlen : (pySplit (pyLower "aa aa")).length = 2 := by decide
  rw [calculateBm25Score_single, hcount, hlen, if_pos (by norm_num)]
  unfold bm25K1 bm25B
  apply mul_neg_of_neg_of_pos
  · exact Real.log_neg (by norm_num) (by norm_num)
  · norm_num

/-- **C2 amended.** The BM25 score is nonnegative provided the batch
`avgDocLength` is at least the document's own token count (as is the
case when the scored document is no longer than the batch average, e.g.
for the default `avgDocLength = 1000` on short texts); without that
proviso the single-document idf can go negative. -/
theorem C2_amended (queryTerms : List String) (documentText : String) (avg : ℝ)
    (hne : queryTerms ≠ []) (hpos : 0 < avg)
    (hlen : ((pySplit (pyLower documentText)).length : ℝ) ≤ avg) :
    0 ≤ calculateBm25Score queryTerms documentText avg := by
  unfold calculateBm25Score
  apply List.sum_nonneg
  intro x hx
  simp only [List.mem_map] at hx
  obtain ⟨term, -, rfl⟩ := hx
  by_cases htf : 0 < (pySplit (pyLower documentText)).count (pyLower term)
  · simp only [htf, if_pos]
    have hcle : ((pySplit (pyLower documentText)).count (pyLower term) : ℝ) ≤ avg :=
      le_trans (by exact_mod_cast Nat.cast_le.mpr (List.count_le_length _ _)) hlen
    apply mul_nonneg
    · apply Real.log_nonneg
      rw [le_div_iff₀ (by positivity)]
      linarith
    · apply div_nonneg
      · unfold bm25K1
        positivity
      · have h1 : (0 : ℝ) ≤ ((pySplit (pyLower documentText)).length : ℝ) / avg :=
          div_nonneg (by positivity) (le_of_lt hpos)
        have h2 : (0 : ℝ) ≤ ((pySplit (pyLower documentText)).count (pyLower term) : ℝ) :=
          Nat.cast_nonneg _
        unfold bm25K1 bm25B
        linarith
  · simp [htf]

/-! ### C4: the batch average document length -/

/-- **C4 counterexample.** The `avgDocLength` computed by
`score_and_rank` is not the batch mean token count of
`title+snippet+content`: the source averages
`len((content or snippet).split())`, which ignores the title and ignores
the snippet whenever content is non-empty. -/
theorem C4_counterexample : avgDocLength [c4Result] ≠ specAvgDocLength [c4Result] := by
  have h1 : docTokenCount c4Result = 1 := by decide
  have h2 : (pySplit (fullText c4Result)).length = 4 := by decide
  have hL : avgDocLength [c4Result] = 1 := by
    simp [avgDocLength, h1]
  have hR : specAvgDocLength [c4Result] = 4 := by
    simp [specAvgDocLength, listMeanR, h2]
  rw [hL, hR]
  norm_num

/-- **C4 amended.** For every non-empty batch, the `avgDocLength` passed
to the lexical scorer equals the arithmetic mean, over the batch, of the
token count of `content` if non-empty else `snippet` (the title never
contributes). -/
theorem C4_amended (results : List SearchResult) (hne : results ≠ []) :
    avgDocLength results = listMeanR (results.map (fun r => (docTokenCount r : ℝ))) := by
  rw [avgDocLength, if_neg hne, listMeanR, List.length_map, Nat.cast_list_sum, List.map_map]
  rfl

/-- Witness for the amended C4 on a concrete singleton batch. -/
theorem C4_amended_witness :
    ([c4Result] : List SearchResult) ≠ [] ∧
    avgDocLength [c4Result] = listMeanR ([c4Result].map (fun r => (docTokenCount r : ℝ))) :=
  ⟨by simp, C4_amended [c4Result] (by simp)⟩

/-! ### C3: BM25 term-frequency monotonicity -/

/-- **C3 counterexample.** With `avgDocLength = 1`, a document holding
the single query term 5 times (out of 5 tokens) scores strictly *below*
a same-length document holding it once: the 5-occurrence idf
`log(2/6)` is negative while the 1-occurrence idf `log(2/2)` is zero. -/
theorem C3_counterexample :
    calculateBm25Score ["aa"] "aa aa aa aa aa" 1 <
      calculateBm25Score ["aa"] "aa bb bb bb bb" 1 := by
  have h5c : (pySplit (pyLower "aa aa aa aa aa")).count (pyLower "aa") = 5 := by decide
  have h5L : (pySplit (pyLower "aa aa aa aa aa")).length = 5 := by decide
  have h1c : (pySplit (pyLower "aa bb bb bb bb")).count (pyLower "aa") = 1 := by decide
  have h1L : (pySplit (pyLower "aa bb bb bb bb")).length = 5 := by decide
  rw [calculateBm25Score_single, calculateBm25Score_single, h5c, h5L, h1c, h1L,
    if_pos (by norm_num), if_pos (by norm_num)]
  unfold bm25K1 bm25B
  push_cast
  rw [show ((1:ℝ) + 1) / (1 + 1) = 1 by norm_num, Real.log_one, zero_mul]
  apply mul_neg_of_neg_of_pos
  · exact Real.log_neg (by norm_num) (by norm_num)
  · norm_num

/-- **C3 amended.** Provided `avgDocLength ≥ 1000` (the scorer's default
order of magnitude; the comparison fails for small averages such as 1),
a document containing the single query term 5 times scores strictly
higher than a same-length document containing it once, and sub-linearly
so (less than 5 times the 1-occurrence score). -/
theorem C3_amended (term d5 d1 : String) (L : ℕ) (avg : ℝ)
    (h5c : (pySplit (pyLower d5)).count (pyLower term) = 5)
    (h5L : (pySplit (pyLower d5)).length = L)
    (h1c : (pySplit (pyLower d1)).count (pyLower term) = 1)
    (h1L : (pySplit (pyLower d1)).length = L)
    (havg : 1000 ≤ avg) :
    calculateBm25Score [term] d1 avg < calculateBm25Score [term] d5 avg ∧
    calculateBm25Score [term] d5 avg < 5 * calculateBm25Score [term] d1 avg := by
  have havg0 : (0:ℝ) < avg := by linarith
  rw [calculateBm25Score_single, calculateBm25Score_single, h5c, h5L, h1c, h1L,
    if_pos (by norm_num), if_pos (by norm_num)]
  unfold bm25K1 bm25B
  push_cast
  set x := (L:ℝ) / avg with hxdef
  have hx : 0 ≤ x := div_nonneg (Nat.cast_nonneg _) havg0.le
  set K := 1.8 * (1 - 0.7 + 0.7 * x) with hKdef
  have hK54 : 0.54 ≤ K := by rw [hKdef]; linarith
  have h1K : (0:ℝ) < 1 + K := by linarith
  have h5K : (0:ℝ) < 5 + K := by linarith
  have hl2 : 0 < Real.log 2 := Real.log_pos (by norm_num)
  have hl3 : 0 < Real.log 3 := Real.log_pos (by norm_num)
  have h43 : 4 * Real.log 3 ≤ 7 * Real.log 2 := by
    have h81 : Real.log 81 ≤ Real.log 128 := Real.log_le_log (by norm_num) (by norm_num)
    rw [show (81:ℝ) = 3 ^ (4:ℕ) by norm_num, show (128:ℝ) = 2 ^ (7:ℕ) by norm_num,
      Real.log_pow, Real.log_pow] at h81
    push_cast at h81
    linarith
  have hA : 9 * Real.log 2 ≤ Real.log (1 + avg) := by
    have h512 : Real.log 512 ≤ Real.log (1 + avg) := Real.log_le_log (by norm_num) (by linarith)
    rw [show (512:ℝ) = 2 ^ (9:ℕ) by norm_num, Real.log_pow] at h512
    push_cast at h512
    linarith
  have hlog6 : Real.log 6 = Real.log 2 + Real.log 3 := by
    rw [show (6:ℝ) = 2 * 3 by norm_num, Real.log_mul (by norm_num) (by norm_num)]
  have hidf5 : Real.log ((1 + avg) / 6) = Real.log (1 + avg) - Real.log 6 :=
    Real.log_div (by linarith) (by norm_num)
  have hidf1 : Real.log ((1 + avg) / 2) = Real.log (1 + avg) - Real.log 2 :=
    Real.log_div (by linarith) (by norm_num)
  rw [show ((1:ℝ) + 5) = 6 by norm_num, show ((1:ℝ) + 1) = 2 by norm_num, hidf5, hidf1, hlog6]
  set A := Real.log (1 + avg) with hAdef
  constructor
  · rw [← mul_div_assoc, ← mul_div_assoc, div_lt_div_iff h1K h5K]
    have p1 : 0 ≤ (K - 0.54) * (32 * Real.log 2 - 5 * Real.log 3) :=
      mul_nonneg (by linarith) (by linarith)
    have p2 : 0 ≤ (A - 9 * Real.log 2) * K := mul_nonneg (by linarith) (by linarith)
    nlinarith [p1, p2, hl2, hl3, h43]
  · rw [← mul_div_assoc, ← mul_div_assoc, ← mul_div_assoc, div_lt_div_iff h5K h1K]
    have q1 : 0 ≤ K * Real.log 3 := mul_nonneg (by linarith) (by linarith)
    nlinarith [q1, hl2, hl3, hA]

/-- Witness for the amended C3 at a concrete input: two 5-token
documents, term frequencies 5 and 1, `avgDocLength = 1000`. -/
theorem C3_amended_witness :
    (pySplit (pyLower "aa aa aa aa aa")).count (pyLower "aa") = 5 ∧
    (pySplit (pyLower "aa aa aa aa aa")).length = 5 ∧
    (pySplit (pyLower "aa bb bb bb bb")).count (pyLower "aa") = 1 ∧
    (pySplit (pyLower "aa bb bb bb bb")).length = 5 ∧
    (1000:ℝ) ≤ 1000 ∧
    (calculateBm25Score ["aa"] "aa bb bb bb bb" 1000 <
        calculateBm25Score ["aa"] "aa aa aa aa aa" 1000 ∧
      calculateBm25Score ["aa"] "aa aa aa aa aa" 1000 <
        5 * calculateBm25Score ["aa"] "aa bb bb bb bb" 1000) :=
  ⟨by decide, by decide, by decide, by decide, le_refl _,
    C3_amended "aa" "aa aa aa aa aa" "aa bb bb bb bb" 5 1000
      (by decide) (by decide) (by decide) (by decide) (le_refl _)⟩

/-! ### C5: legal-context asymmetry -/

/-- A sum over a list equals the sum over the sublist of elements kept
by `p`, when the function vanishes off `p`. -/
lemma sum_map_filter_support (l : List String) (p : String → Bool) (f : String → ℝ)
    (hf : ∀ a ∈ l, p a = false → f a = 0) :
    (l.map f).sum = ((l.filter p).map f).sum := by
  induction l with
  | nil => rfl
  | cons a t ih =>
    have ht := ih (fun b hb => hf b (List.mem_cons_of_mem a hb))
    by_cases h : p a
    · simp [List.filter_cons, h, ht]
    · simp only [List.map_cons, List.sum_cons, List.filter_cons,
        Bool.not_eq_true] at *
      rw [hf a (List.mem_cons_self a t) (by simpa using h), if_neg (by simpa using h), ht]
      ring

/-- A domain with no matching keyword scores 0. -/
lemma domainScore_zero (text : String) (kws : List String) (w : ℝ)
    (h : ∀ kw ∈ kws, pyContains text kw = false) : domainScore text kws w = 0 := by
  unfold domainScore
  have hfil : kws.filter (fun kw => pyContains text kw) = [] :=
    List.filter_eq_nil_iff.mpr (fun kw hkw => by simp [h kw hkw])
  rw [hfil]
  simp only [List.length_nil]
  rw [if_neg (by norm_num)]
  apply List.sum_eq_zero
  intro x hx
  obtain ⟨kw, hkw, rfl⟩ := List.mem_map.mp hx
  simp [h kw hkw]

/-- A domain whose matching keywords (more than one of them) all occur
exactly `c` times scores
`matched * (log(1+c) * weight) * (1 + 0.1 * matched)`. -/
lemma domainScore_matched_const (text : String) (kws : List String) (w : ℝ) (c : ℕ)
    (hcount : ∀ kw ∈ kws, pyContains text kw = true → pyCount text kw = c)
    (hm : 1 < (kws.filter (fun kw => pyContains text kw)).length) :
    domainScore text kws w =
      ((kws.filter (fun kw => pyContains text kw)).length : ℝ) * (Real.log (1 + (c : ℝ)) * w) *
        (1 + 0.1 * ((kws.filter (fun kw => pyContains text kw)).length : ℝ)) := by
  unfold domainScore
  rw [if_pos hm]
  congr 1
  rw [sum_map_filter_support kws (fun kw => pyContains text kw) _
    (fun kw _ hkw => by simp [hkw])]
  have hmap : (kws.filter (fun kw => pyContains text kw)).map
      (fun kw => if pyContains text kw then Real.log (1 + (pyCount text kw : ℝ)) * w else 0) =
      (kws.filter (fun kw => pyContains text kw)).map
        (fun _ => Real.log (1 + (c : ℝ)) * w) := by
    apply List.map_congr_left
    intro kw hkw
    have hc1 := List.of_mem_filter hkw
    have hc2 := hcount kw (List.mem_of_mem_filter hkw) hc1
    simp [hc1, hc2]
  rw [hmap, List.map_const', List.sum_replicate, nsmul_eq_mul]

/-- A fold that keeps the accumulator unless it sees a strictly larger
score is fixed when nothing exceeds the accumulator. -/
lemma foldl_pick_fixed (x : String × ℝ) (xs : List (String × ℝ))
    (h : ∀ p ∈ xs, p.2 ≤ x.2) :
    xs.foldl (fun acc p => if acc.2 < p.2 then p else acc) x = x := by
  induction xs with
  | nil => rfl
  | cons p t ih =>
    rw [List.foldl_cons, if_neg (not_lt.mpr (h p (List.mem_cons_self p t)))]
    exact ih (fun q hq => h q (List.mem_cons_of_mem p hq))

/-- `max`-fold analogue of `foldl_pick_fixed`. -/
lemma foldl_max_fixed (x : ℝ) (xs : List ℝ) (h : ∀ y ∈ xs, y ≤ x) :
    xs.foldl max x = x := by
  induction xs with
  | nil => rfl
  | cons y t ih =>
    rw [List.foldl_cons, max_eq_left (h y (List.mem_cons_self y t))]
    exact ih (fun z hz => h z (List.mem_cons_of_mem y hz))

/-- `identify_legal_domain` on `civilQueryText`: civil law, with
confidence at least 1/2 (the seven matched keywords give score
`7 * log 2 * 1.7 ≈ 8.25`, so confidence ≈ 0.825). -/
lemma identify_civilQueryText :
    (identifyLegalDomain civilQueryText).1 = "гражданско_право" ∧
    (1 : ℝ) / 2 ≤ (identifyLegalDomain civilQueryText).2 := by
  have hlow : pyLower civilQueryText = civilQueryText := by decide
  have hfil : (["обезщетение", "договор", "собственост", "наследство", "семейство",
      "развод", "алименти", "данъци"].filter (fun kw => pyContains civilQueryText kw)) =
      ["обезщетение", "собственост", "наследство", "семейство",
        "развод", "алименти", "данъци"] := by decide
  have h5 : (5 : ℝ) ≤ domainScore civilQueryText
      ["обезщетение", "договор", "собственост", "наследство", "семейство",
        "развод", "алименти", "данъци"] ((1.0 : ℚ) : ℝ) := by
    rw [domainScore_matched_const _ _ _ 1 (by decide) (by rw [hfil]; norm_num), hfil]
    have hlog2 := Real.log_two_gt_d9
    simp only [List.length_cons, List.length_nil]
    push_cast
    nlinarith
  have h0 : (0 : ℝ) ≤ domainScore civilQueryText
      ["обезщетение", "договор", "собственост", "наследство", "семейство",
        "развод", "алименти", "данъци"] ((1.0 : ℚ) : ℝ) := by linarith
  have hz2 : domainScore civilQueryText ["престъпление", "наказание", "затвор", "глоба",
      "убийство", "кража", "измама", "дрога"] ((1.0 : ℚ) : ℝ) = 0 :=
    domainScore_zero _ _ _ (by decide)
  have hz3 : domainScore civilQueryText ["административен", "лиценз", "разрешение", "наредба",
      "постановление", "министерство", "регулация"] ((0.6 : ℚ) : ℝ) = 0 :=
    domainScore_zero _ _ _ (by decide)
  have hz4 : domainScore civilQueryText ["работа", "трудов", "заплата", "отпуска", "уволнение",
      "договор", "осигуровка", "пенсия"] ((1.0 : ℚ) : ℝ) = 0 :=
    domainScore_zero _ _ _ (by decide)
  have hz5 : domainScore civilQueryText ["съд", "дело", "процес", "съдебен", "апелация",
      "касация", "решение", "призовка"] ((0.9 : ℚ) : ℝ) = 0 :=
    domainScore_zero _ _ _ (by decide)
  have hz6 : domainScore civilQueryText ["медицински", "лечение", "болница", "лекар",
      "здравеопазване", "увреждане", "инвалидност"] ((1.0 : ℚ) : ℝ) = 0 :=
    domainScore_zero _ _ _ (by decide)
  have hID : identifyLegalDomain civilQueryText =
      ("гражданско_право", min (domainScore civilQueryText
        ["обезщетение", "договор", "собственост", "наследство", "семейство",
          "развод", "алименти", "данъци"] ((1.0 : ℚ) : ℝ) / 10) 1) := by
    unfold identifyLegalDomain
    dsimp only
    rw [hlow]
    simp only [legalDomains, List.map_cons, List.map_nil]
    rw [hz2, hz3, hz4, hz5, hz6]
    simp only [List.map_cons, List.map_nil, listMaxR, pickFirstMax]
    rw [foldl_max_fixed _ _ (by intro y hy; fin_cases hy <;> exact h0)]
    rw [if_neg (ne_of_gt (lt_of_lt_of_le (by norm_num) h5))]
    rw [foldl_pick_fixed _ _ (by intro p hp; fin_cases hp <;> exact h0)]
  refine ⟨by rw [hID], by rw [hID]; exact le_min (by linarith) (by norm_num)⟩

/-- `identify_legal_domain` on `adminDocText`: administrative law, with
confidence at least 1/2 (the six matched keywords, twice each, give
score `6 * log 3 * 0.6 * 1.6 ≈ 6.33`). -/
lemma identify_adminDocText :
    (identifyLegalDomain adminDocText).1 = "административно_право" ∧
    (1 : ℝ) / 2 ≤ (identifyLegalDomain adminDocText).2 := by
  have hlow : pyLower adminDocText = adminDocText := by decide
  have hfil : (["административен", "лиценз", "разрешение", "наредба", "постановление",
      "министерство", "регулация"].filter (fun kw => pyContains adminDocText kw)) =
      ["административен", "лиценз", "наредба", "постановление",
        "министерство", "регулация"] := by decide
  have hlog3 : (1 : ℝ) < Real.log 3 :=
    (Real.lt_log_iff_exp_lt (by norm_num)).mpr
      (lt_trans Real.exp_one_lt_d9 (by norm_num))
  have h5 : (5 : ℝ) ≤ domainScore adminDocText
      ["административен", "лиценз", "разрешение", "наредба", "постановление",
        "министерство", "регулация"] ((0.6 : ℚ) : ℝ) := by
    rw [domainScore_matched_const _ _ _ 2 (by decide) (by rw [hfil]; norm_num), hfil]
    simp only [List.length_cons, List.length_nil]
    push_cast
    nlinarith
  have h0 : (0 : ℝ) ≤ domainScore adminDocText
      ["административен", "лиценз", "разрешение", "наредба", "постановление",
        "министерство", "регулация"] ((0.6 : ℚ) : ℝ) := by linarith
  have hDpos : (0 : ℝ) < domainScore adminDocText
      ["административен", "лиценз", "разрешение", "наредба", "постановление",
        "министерство", "регулация"] ((0.6 : ℚ) : ℝ) :=
    lt_of_lt_of_le (by norm_num) h5
  have hz1 : domainScore adminDocText ["обезщетение", "договор", "собственост", "наследство",
      "семейство", "развод", "алименти", "данъци"] ((1.0 : ℚ) : ℝ) = 0 :=
    domainScore_zero _ _ _ (by decide)
  have hz2 : domainScore adminDocText ["престъпление", "наказание", "затвор", "глоба",
      "убийство", "кража", "измама", "дрога"] ((1.0 : ℚ) : ℝ) = 0 :=
    domainScore_zero _ _ _ (by decide)
  have hz4 : domainScore adminDocText ["работа", "трудов", "заплата", "отпуска", "уволнение",
      "договор", "осигуровка", "пенсия"] ((1.0 : ℚ) : ℝ) = 0 :=
    domainScore_zero _ _ _ (by decide)
  have hz5 : domainScore adminDocText ["съд", "дело", "процес", "съдебен", "апелация",
      "касация", "решение", "призовка"] ((0.9 : ℚ) : ℝ) = 0 :=
    domainScore_zero _ _ _ (by decide)
  have hz6 : domainScore adminDocText ["медицински", "лечение", "болница", "лекар",
      "здравеопазване", "увреждане", "инвалидност"] ((1.0 : ℚ) : ℝ) = 0 :=
    domainScore_zero _ _ _ (by decide)
  have hID : identifyLegalDomain adminDocText =
      ("административно_право", min (domainScore adminDocText
        ["административен", "лиценз", "разрешение", "наредба", "постановление",
          "министерство", "регулация"] ((0.6 : ℚ) : ℝ) / 10) 1) := by
    unfold identifyLegalDomain
    dsimp only
    rw [hlow]
    simp only [legalDomains, List.map_cons, List.map_nil]
    rw [hz1, hz2, hz4, hz5, hz6]
    simp only [List.map_cons, List.map_nil, listMaxR, pickFirstMax,
      List.foldl_cons, List.foldl_nil]
    dsimp only
    rw [max_self, max_eq_right h0, max_eq_left h0, max_eq_left h0, max_eq_left h0]
    rw [if_neg (ne_of_gt hDpos)]
    rw [if_neg (lt_irrefl (0 : ℝ))]
    dsimp only
    rw [if_pos hDpos]
    dsimp only
    rw [if_neg (not_lt.mpr h0)]
    dsimp only
    rw [if_neg (not_lt.mpr h0)]
    dsimp only
    rw [if_neg (not_lt.mpr h0)]
  refine ⟨by rw [hID], by rw [hID]; exact le_min (by linarith) (by norm_num)⟩

/-- **C5.** When the query classifies confidently (confidence ≥ 1/2) as
civil law and the document classifies confidently as administrative law,
`calculate_legal_context_score` returns at most 0.2, strictly below the
score obtained when both texts classify as civil law with equal
confidences ≥ 1/2 (which is `min(2c², 1) ≥ 1/2`). -/
theorem C5_legal_context_asymmetry (q d q2 d2 : String) (cq cd c : ℝ)
    (hq : identifyLegalDomain q = ("гражданско_право", cq)) (hcq : (1 : ℝ) / 2 ≤ cq)
    (hd : identifyLegalDomain d = ("административно_право", cd)) (hcd : (1 : ℝ) / 2 ≤ cd)
    (hq2 : identifyLegalDomain q2 = ("гражданско_право", c))
    (hd2 : identifyLegalDomain d2 = ("гражданско_право", c)) (hc : (1 : ℝ) / 2 ≤ c) :
    calculateLegalContextScore q d ≤ 0.2 ∧
    calculateLegalContextScore q d < calculateLegalContextScore q2 d2 := by
  have hqd : calculateLegalContextScore q d = 0.2 := by
    unfold calculateLegalContextScore
    dsimp only
    rw [hq, hd]
    dsimp only
    rw [if_neg (by decide), if_pos (by decide)]
  have hq2d2 : calculateLegalContextScore q2 d2 = min (c * c * 2) 1 := by
    unfold calculateLegalContextScore
    dsimp only
    rw [hq2, hd2]
    dsimp only
    rw [if_pos (by exact ⟨rfl, by decide⟩)]
  refine ⟨le_of_eq hqd, ?_⟩
  rw [hqd, hq2d2]
  exact lt_min_iff.mpr ⟨by nlinarith, by norm_num⟩

/-- Witness for C5: the concrete civil query text against the concrete
administrative document text, compared with the civil text against
itself (equal confidences trivially). -/
theorem C5_legal_context_asymmetry_witness :
    identifyLegalDomain civilQueryText =
      ("гражданско_право", (identifyLegalDomain civilQueryText).2) ∧
    identifyLegalDomain adminDocText =
      ("административно_право", (identifyLegalDomain adminDocText).2) ∧
    (1 : ℝ) / 2 ≤ (identifyLegalDomain civilQueryText).2 ∧
    (1 : ℝ) / 2 ≤ (identifyLegalDomain adminDocText).2 ∧
    (calculateLegalContextScore civilQueryText adminDocText ≤ 0.2 ∧
      calculateLegalContextScore civilQueryText adminDocText <
        calculateLegalContextScore civilQueryText civilQueryText) := by
  have hciv := identify_civilQueryText
  have hadm := identify_adminDocText
  have hqpair : identifyLegalDomain civilQueryText =
      ("гражданско_право", (identifyLegalDomain civilQueryText).2) :=
    Prod.ext hciv.1 rfl
  have hdpair : identifyLegalDomain adminDocText =
      ("административно_право", (identifyLegalDomain adminDocText).2) :=
    Prod.ext hadm.1 rfl
  exact ⟨hqpair, hdpair, hciv.2, hadm.2,
    C5_legal_context_asymmetry civilQueryText adminDocText civilQueryText civilQueryText
      (identifyLegalDomain civilQueryText).2 (identifyLegalDomain adminDocText).2
      (identifyLegalDomain civilQueryText).2
      hqpair hciv.2 hdpair hadm.2 hqpair hqpair hciv.2⟩

/-! ### C8: the semantic-similarity fallback ladder -/

/-- The smoothed idf over the two-document corpus is at least 1. -/
lemma tfidfIdf_ge_one (q d t : String) : (1 : ℝ) ≤ tfidfIdf q d t := by
  unfold tfidfIdf
  dsimp only
  have hdf : ((if t ∈ ngramFeatures q then 1 else 0) +
      (if t ∈ ngramFeatures d then 1 else 0) : ℕ) ≤ 2 := by
    split_ifs <;> norm_num
  have hpos : (0 : ℝ) < 1 + ((if t ∈ ngramFeatures q then 1 else 0) +
      (if t ∈ ngramFeatures d then 1 else 0) : ℕ) := by positivity
  have h1 : (1 : ℝ) ≤ 3 / (1 + ((if t ∈ ngramFeatures q then 1 else 0) +
      (if t ∈ ngramFeatures d then 1 else 0) : ℕ)) := by
    rw [le_div_iff₀ hpos]
    have : (((if t ∈ ngramFeatures q then 1 else 0) +
        (if t ∈ ngramFeatures d then 1 else 0) : ℕ) : ℝ) ≤ 2 := by exact_mod_cast hdf
    linarith
  have := Real.log_nonneg h1
  linarith

/-- Entries of the tf·idf rows are nonnegative. -/
lemma tfidfEntry_nonneg (q d doc t : String) : 0 ≤ tfidfEntry q d doc t := by
  unfold tfidfEntry
  exact mul_nonneg (Nat.cast_nonneg _) (le_trans zero_le_one (tfidfIdf_ge_one q d t))

/-- The inner product of the two rows is nonnegative. -/
lemma tfidfDot_nonneg (q d : String) : 0 ≤ tfidfDot q d := by
  unfold tfidfDot
  exact Finset.sum_nonneg fun i _ =>
    mul_nonneg (tfidfEntry_nonneg _ _ _ _) (tfidfEntry_nonneg _ _ _ _)

/-- Row norms are nonnegative. -/
lemma tfidfNormSq_nonneg (q d doc : String) : 0 ≤ tfidfNormSq q d doc := by
  unfold tfidfNormSq
  exact Finset.sum_nonneg fun i _ => sq_nonneg _

/-- The TF-IDF cosine lies in [0, 1]: nonnegativity because every entry
is nonnegative, and the upper bound by Cauchy-Schwarz. -/
lemma tfidfCosine_bounds (q d : String) : 0 ≤ tfidfCosine q d ∧ tfidfCosine q d ≤ 1 := by
  unfold tfidfCosine
  split_ifs with h
  · norm_num
  · push_neg at h
    have hq0 : 0 < tfidfNormSq q d q := lt_of_le_of_ne (tfidfNormSq_nonneg q d q) (Ne.symm h.1)
    have hd0 : 0 < tfidfNormSq q d d := lt_of_le_of_ne (tfidfNormSq_nonneg q d d) (Ne.symm h.2)
    have hdenpos : 0 < Real.sqrt (tfidfNormSq q d q) * Real.sqrt (tfidfNormSq q d d) :=
      mul_pos (Real.sqrt_pos.mpr hq0) (Real.sqrt_pos.mpr hd0)
    constructor
    · exact div_nonneg (tfidfDot_nonneg q d) hdenpos.le
    · rw [div_le_one hdenpos]
      unfold tfidfDot tfidfNormSq
      exact Real.sum_mul_le_sqrt_mul_sqrt _ _ _

/-- The token-overlap fallback lies in [0, 1]. -/
lemma tokenOverlapScore_bounds (q d : String) :
    0 ≤ tokenOverlapScore q d ∧ tokenOverlapScore q d ≤ 1 := by
  unfold tokenOverlapScore
  dsimp only
  split_ifs with h
  · constructor
    · exact le_min (div_nonneg (Nat.cast_nonneg _) (Nat.cast_nonneg _)) zero_le_one
    · exact min_le_right _ _
  · norm_num

/-- The semantic similarity always lies in [0, 1] (both the TF-IDF path
and the overlap fallback are bounded). -/
lemma semantic_bounds (q d : String) :
    0 ≤ calculateSemanticSimilarity q d ∧ calculateSemanticSimilarity q d ≤ 1 := by
  unfold calculateSemanticSimilarity
  split_ifs with hvoc
  · exact tokenOverlapScore_bounds q d
  · exact tfidfCosine_bounds q d

/-- **C8.** `calculate_semantic_similarity` (no embedding provider) is a
total function into [0, 1]: the TF-IDF path stays in [0, 1]; on exactly
the inputs where vectorization fails (empty fitted vocabulary) it
returns the clamped word-overlap ratio `min(|q ∩ d| / |q|, 1)`, which is
0 when the two texts share no word. -/
theorem C8_semantic_fallback (q d : String) :
    (0 ≤ calculateSemanticSimilarity q d ∧ calculateSemanticSimilarity q d ≤ 1) ∧
    (tfidfVocab q d = [] → calculateSemanticSimilarity q d =
      min (((((pySplit (pyLower q)).dedup.filter
            (fun w => w ∈ (pySplit (pyLower d)).dedup)).length : ℝ)) /
        (((pySplit (pyLower q)).dedup.length : ℝ))) 1) ∧
    (tfidfVocab q d = [] →
      ((pySplit (pyLower q)).dedup.filter (fun w => w ∈ (pySplit (pyLower d)).dedup)) = [] →
      calculateSemanticSimilarity q d = 0) := by
  have hover : tfidfVocab q d = [] → calculateSemanticSimilarity q d =
      min (((((pySplit (pyLower q)).dedup.filter
            (fun w => w ∈ (pySplit (pyLower d)).dedup)).length : ℝ)) /
        (((pySplit (pyLower q)).dedup.length : ℝ))) 1 := by
    intro hvoc
    unfold calculateSemanticSimilarity
    rw [if_pos hvoc]
    unfold tokenOverlapScore
    dsimp only
    split_ifs with h
    · rfl
    · rw [not_and_or] at h
      rcases h with h | h
      · rw [not_not] at h
        rw [h]
        simp
      · rw [not_not] at h
        have hfil : (pySplit (pyLower q)).dedup.filter
            (fun w => w ∈ (pySplit (pyLower d)).dedup) = [] := by
          apply List.filter_eq_nil_iff.mpr
          intro w hw
          rw [h]
          simp
        rw [hfil]
        simp
  refine ⟨semantic_bounds q d, hover, ?_⟩
  intro hvoc hdisj
  rw [hover hvoc, hdisj]
  simp

/-- Witness for C8 on concrete texts: both texts have no sklearn token
(only length-1 word runs), so the vocabulary is empty, and they share no
whitespace word, so the final fallback returns exactly 0. -/
theorem C8_semantic_fallback_witness :
    tfidfVocab "a !" "b" = [] ∧
    ((pySplit (pyLower "a !")).dedup.filter
      (fun w => w ∈ (pySplit (pyLower "b")).dedup)) = [] ∧
    calculateSemanticSimilarity "a !" "b" = 0 :=
  ⟨by decide, by decide,
    (C8_semantic_fallback "a !" "b").2.2 (by decide) (by decide)⟩

/-! ### C1: bounds of the fused scores -/

/-- Domain scores are nonnegative (for nonnegative weights). -/
lemma domainScore_nonneg (text : String) (kws : List String) (w : ℝ) (hw : 0 ≤ w) :
    0 ≤ domainScore text kws w := by
  unfold domainScore
  dsimp only
  have hbase : 0 ≤ (kws.map (fun kw =>
      if pyContains text kw then Real.log (1 + (pyCount text kw : ℝ)) * w else 0)).sum := by
    apply List.sum_nonneg
    intro x hx
    obtain ⟨kw, -, rfl⟩ := List.mem_map.mp hx
    split_ifs with h
    · refine mul_nonneg (Real.log_nonneg ?_) hw
      have : (0 : ℝ) ≤ (pyCount text kw : ℝ) := Nat.cast_nonneg _
      linarith
    · exact le_refl 0
  split_ifs with hm
  · exact mul_nonneg hbase (by positivity)
  · exact hbase

/-- The best-score fold returns its start or a list member. -/
lemma pickFirstMax_foldl_mem_or (x : String × ℝ) (xs : List (String × ℝ)) :
    xs.foldl (fun acc p => if acc.2 < p.2 then p else acc) x = x ∨
      xs.foldl (fun acc p => if acc.2 < p.2 then p else acc) x ∈ xs := by
  induction xs generalizing x with
  | nil => exact Or.inl rfl
  | cons p t ih =>
    rw [List.foldl_cons]
    rcases ih (if x.2 < p.2 then p else x) with h | h
    · rw [h]
      split_ifs
      · exact Or.inr (List.mem_cons_self _ _)
      · exact Or.inl rfl
    · exact Or.inr (List.mem_cons_of_mem _ h)

/-- The winning score is nonnegative when all candidate scores are. -/
lemma pickFirstMax_snd_nonneg (l : List (String × ℝ)) (h : ∀ p ∈ l, 0 ≤ p.2) :
    0 ≤ (pickFirstMax l).2 := by
  cases l with
  | nil => norm_num [pickFirstMax]
  | cons x xs =>
    simp only [pickFirstMax]
    rcases pickFirstMax_foldl_mem_or x xs with hm | hm
    · rw [hm]
      exact h x (List.mem_cons_self x xs)
    · exact h _ (List.mem_cons_of_mem x hm)

/-- The classifier's confidence lies in [0, 1]. -/
lemma identify_confidence_bounds (text : String) :
    0 ≤ (identifyLegalDomain text).2 ∧ (identifyLegalDomain text).2 ≤ 1 := by
  have hw : ∀ dcfg ∈ legalDomains, (0 : ℚ) ≤ dcfg.2.2 := by
    intro dcfg hd
    fin_cases hd <;> norm_num
  unfold identifyLegalDomain
  dsimp only
  split_ifs with h
  · norm_num
  · dsimp only
    constructor
    · refine le_min (div_nonneg ?_ (by norm_num)) zero_le_one
      apply pickFirstMax_snd_nonneg
      intro p hp
      obtain ⟨dcfg, hd, rfl⟩ := List.mem_map.mp hp
      exact domainScore_nonneg _ _ _ (by exact_mod_cast hw dcfg hd)
    · exact min_le_right _ _

/-- The legal-context score lies in [0, 1]. -/
lemma legalContext_bounds (q d : String) :
    0 ≤ calculateLegalContextScore q d ∧ calculateLegalContextScore q d ≤ 1 := by
  have hq := identify_confidence_bounds q
  have hd := identify_confidence_bounds d
  unfold calculateLegalContextScore
  dsimp only
  split_ifs <;> refine ⟨?_, ?_⟩ <;>
    first
    | exact le_min (mul_nonneg (mul_nonneg hq.1 hd.1) (by norm_num)) zero_le_one
    | exact min_le_right _ _
    | exact mul_nonneg hd.1 (by norm_num)
    | exact mul_nonneg hq.1 (by norm_num)
    | nlinarith [hq.1, hq.2, hd.1, hd.2]

/-- The domain-authority lookup always yields a value in [0, 0.95]. -/
lemma domainAuthority_bounds (url : String) :
    (0 : ℚ) ≤ calculateDomainAuthority url ∧ calculateDomainAuthority url ≤ 0.95 := by
  simp only [calculateDomainAuthority, domainAuthorityTable, lookupDomainAuthority]
  split_ifs <;> norm_num

/-- Field bounds of one scored result: `combined_score ≤ 1` and
`confidence_score ≤ 1` always, and both are nonnegative whenever the
raw BM25 score is. -/
lemma scoreResult_bounds (pq : String) (qts : List String) (avg : ℝ) (r0 : SearchResult) :
    (scoreResult pq qts avg r0).combined_score ≤ 1 ∧
    (scoreResult pq qts avg r0).confidence_score ≤ 1 ∧
    (0 ≤ (scoreResult pq qts avg r0).bm25_score →
      0 ≤ (scoreResult pq qts avg r0).combined_score ∧
      0 ≤ (scoreResult pq qts avg r0).confidence_score) := by
  obtain ⟨hS0, hS1⟩ := semantic_bounds pq (fullText r0)
  obtain ⟨hL0, hL1⟩ := legalContext_bounds pq (fullText r0)
  have hAq := domainAuthority_bounds r0.url
  have hA0 : (0 : ℝ) ≤ ((calculateDomainAuthority r0.url : ℚ) : ℝ) := by
    exact_mod_cast hAq.1
  have hA1 : ((calculateDomainAuthority r0.url : ℚ) : ℝ) ≤ 0.95 := by
    have := hAq.2
    have h95 : ((0.95 : ℚ) : ℝ) = 0.95 := by norm_num
    calc ((calculateDomainAuthority r0.url : ℚ) : ℝ) ≤ ((0.95 : ℚ) : ℝ) := by
          exact_mod_cast this
      _ = 0.95 := h95
  unfold scoreResult
  dsimp only
  have hB1 : min (calculateBm25Score qts (fullText r0) avg / 10) 1 ≤ 1 := min_le_right _ _
  have hT0 : 0 ≤ min (0.1 *
      ((qts.filter (fun t => pyContains (pyLower r0.title) t)).length : ℝ)) 0.5 :=
    le_min (by positivity) (by norm_num)
  have hT1 : min (0.1 *
      ((qts.filter (fun t => pyContains (pyLower r0.title) t)).length : ℝ)) 0.5 ≤ 0.5 :=
    min_le_right _ _
  refine ⟨by linarith, min_le_right _ _, fun hbm => ?_⟩
  have hB0 : 0 ≤ min (calculateBm25Score qts (fullText r0) avg / 10) 1 :=
    le_min (div_nonneg hbm (by norm_num)) zero_le_one
  have hC0 : (0 : ℝ) ≤ 0.30 * min (calculateBm25Score qts (fullText r0) avg / 10) 1
      + 0.25 * calculateSemanticSimilarity pq (fullText r0)
      + 0.25 * calculateLegalContextScore pq (fullText r0)
      + 0.10 * ((calculateDomainAuthority r0.url : ℚ) : ℝ)
      + 0.10 * min (0.1 *
          ((qts.filter (fun t => pyContains (pyLower r0.title) t)).length : ℝ)) 0.5 := by
    linarith
  exact ⟨hC0, le_min (by linarith) zero_le_one⟩

/-- **C1 amended.** Every result returned by `score_and_rank` satisfies
`combined_score ≤ 1` and `confidence_score ≤ 1`; the lower bounds
`0 ≤ combined_score` and `0 ≤ confidence_score` hold whenever the
result's raw BM25 score is nonnegative, but can fail otherwise (the
un-clamped negative BM25 contribution can drag both below 0). -/
theorem C1_amended (query : String) (results : List SearchResult) (r : SearchResult)
    (hr : r ∈ scoreAndRank query results) :
    r.combined_score ≤ 1 ∧ r.confidence_score ≤ 1 ∧
    (0 ≤ r.bm25_score → 0 ≤ r.combined_score ∧ 0 ≤ r.confidence_score) := by
  unfold scoreAndRank at hr
  split_ifs at hr with hres
  · exact absurd hr (List.not_mem_nil r)
  · dsimp only at hr
    unfold rankSort at hr
    rw [List.mem_insertionSort] at hr
    obtain ⟨r0, -, rfl⟩ := List.mem_map.mp hr
    exact scoreResult_bounds _ _ _ r0

/-- Witness for the amended C1: the single scored result of a singleton
batch is in the output, and the bounds hold for it. -/
theorem C1_amended_witness :
    scoreResult (preprocessQueryScorer "") (pySplit (preprocessQueryScorer ""))
        (avgDocLength [c1WitnessResult]) c1WitnessResult ∈
      scoreAndRank "" [c1WitnessResult] ∧
    ((scoreResult (preprocessQueryScorer "") (pySplit (preprocessQueryScorer ""))
        (avgDocLength [c1WitnessResult]) c1WitnessResult).combined_score ≤ 1 ∧
      (scoreResult (preprocessQueryScorer "") (pySplit (preprocessQueryScorer ""))
        (avgDocLength [c1WitnessResult]) c1WitnessResult).confidence_score ≤ 1 ∧
      (0 ≤ (scoreResult (preprocessQueryScorer "") (pySplit (preprocessQueryScorer ""))
          (avgDocLength [c1WitnessResult]) c1WitnessResult).bm25_score →
        0 ≤ (scoreResult (preprocessQueryScorer "") (pySplit (preprocessQueryScorer ""))
          (avgDocLength [c1WitnessResult]) c1WitnessResult).combined_score ∧
        0 ≤ (scoreResult (preprocessQueryScorer "") (pySplit (preprocessQueryScorer ""))
          (avgDocLength [c1WitnessResult]) c1WitnessResult).confidence_score)) := by
  have hmem : scoreResult (preprocessQueryScorer "") (pySplit (preprocessQueryScorer ""))
      (avgDocLength [c1WitnessResult]) c1WitnessResult ∈ scoreAndRank "" [c1WitnessResult] := by
    unfold scoreAndRank rankSort
    rw [if_neg (by simp)]
    simp [List.insertionSort, List.orderedInsert]
  exact ⟨hmem, C1_amended "" [c1WitnessResult] _ hmem⟩

/-- A document with no query-side n-gram features has a zero tf·idf
row. -/
lemma tfidfNormSq_left_zero (q d : String) (h : ngramFeatures q = []) :
    tfidfNormSq q d q = 0 := by
  unfold tfidfNormSq tfidfEntry
  apply Finset.sum_eq_zero
  intro i hi
  rw [h]
  simp

/-- BM25 evaluation on the counterexample: each of the four terms has
frequency 32 against `avgDocLength = 1`, so each idf is `log(2/33)` and
the total is below −5. -/
lemma c1_bm25 : calculateBm25Score ["a", "b", "c", "d"] (fullText c1Result) 1 ≤ -5 := by
  have hca : (pySplit (pyLower (fullText c1Result))).count (pyLower "a") = 32 := by decide
  have hcb : (pySplit (pyLower (fullText c1Result))).count (pyLower "b") = 32 := by decide
  have hcc : (pySplit (pyLower (fullText c1Result))).count (pyLower "c") = 32 := by decide
  have hcd : (pySplit (pyLower (fullText c1Result))).count (pyLower "d") = 32 := by decide
  have hlen : (pySplit (pyLower (fullText c1Result))).length = 129 := by decide
  unfold calculateBm25Score
  dsimp only
  simp only [List.map_cons, List.map_nil, List.sum_cons, List.sum_nil]
  rw [hca, hcb, hcc, hcd, hlen]
  rw [if_pos (by norm_num)]
  unfold bm25K1 bm25B
  push_cast
  have hFpos : (0 : ℝ) < 32 * (1.8 + 1) / (32 + 1.8 * (1 - 0.7 + 0.7 * (129 / 1))) := by
    norm_num
  have hlog : Real.log ((1 + 1) / (1 + (32 : ℝ))) ≤ -2.7725887212 := by
    have h1 : ((1 : ℝ) + 1) / (1 + 32) = ((33 : ℝ) / 2)⁻¹ := by norm_num
    rw [h1, Real.log_inv]
    have h2 : Real.log 16 ≤ Real.log (33 / 2) := Real.log_le_log (by norm_num) (by norm_num)
    rw [show (16 : ℝ) = 2 ^ (4 : ℕ) by norm_num, Real.log_pow] at h2
    push_cast at h2
    have := Real.log_two_gt_d9
    linarith
  have hX : Real.log ((1 + 1) / (1 + (32 : ℝ))) *
      (32 * (1.8 + 1) / (32 + 1.8 * (1 - 0.7 + 0.7 * (129 / 1)))) ≤ -1.25 := by
    calc Real.log ((1 + 1) / (1 + (32 : ℝ))) *
        (32 * (1.8 + 1) / (32 + 1.8 * (1 - 0.7 + 0.7 * (129 / 1))))
        ≤ (-2.7725887212) * (32 * (1.8 + 1) / (32 + 1.8 * (1 - 0.7 + 0.7 * (129 / 1)))) :=
          mul_le_mul_of_nonneg_right hlog hFpos.le
      _ ≤ -1.25 := by norm_num
  linarith

/-- The query of the counterexample has no sklearn token (all words have
length 1), so its tf·idf row is zero and the cosine is 0. -/
lemma c1_semantic : calculateSemanticSimilarity "a b c d" (fullText c1Result) = 0 := by
  have hngq : ngramFeatures "a b c d" = [] := by decide
  have hvoc : tfidfVocab "a b c d" (fullText c1Result) = ["zz"] := by decide
  unfold calculateSemanticSimilarity
  rw [if_neg (by rw [hvoc]; simp)]
  unfold tfidfCosine
  rw [if_pos (Or.inl (tfidfNormSq_left_zero _ _ hngq))]

/-- The counterexample query matches no legal-domain keyword. -/
lemma c1_identify_query : identifyLegalDomain "a b c d" = ("unknown", 0) := by
  have hlow : pyLower "a b c d" = "a b c d" := by decide
  have hz1 : domainScore "a b c d" ["обезщетение", "договор", "собственост", "наследство",
      "семейство", "развод", "алименти", "данъци"] ((1.0 : ℚ) : ℝ) = 0 :=
    domainScore_zero _ _ _ (by decide)
  have hz2 : domainScore "a b c d" ["престъпление", "наказание", "затвор", "глоба",
      "убийство", "кража", "измама", "дрога"] ((1.0 : ℚ) : ℝ) = 0 :=
    domainScore_zero _ _ _ (by decide)
  have hz3 : domainScore "a b c d" ["административен", "лиценз", "разрешение", "наредба",
      "постановление", "министерство", "регулация"] ((0.6 : ℚ) : ℝ) = 0 :=
    domainScore_zero _ _ _ (by decide)
  have hz4 : domainScore "a b c d" ["работа", "трудов", "заплата", "отпуска", "уволнение",
      "договор", "осигуровка", "пенсия"] ((1.0 : ℚ) : ℝ) = 0 :=
    domainScore_zero _ _ _ (by decide)
  have hz5 : domainScore "a b c d" ["съд", "дело", "процес", "съдебен", "апелация",
      "касация", "решение", "призовка"] ((0.9 : ℚ) : ℝ) = 0 :=
    domainScore_zero _ _ _ (by decide)
  have hz6 : domainScore "a b c d" ["медицински", "лечение", "болница", "лекар",
      "здравеопазване", "увреждане", "инвалидност"] ((1.0 : ℚ) : ℝ) = 0 :=
    domainScore_zero _ _ _ (by decide)
  unfold identifyLegalDomain
  dsimp only
  rw [hlow]
  simp only [legalDomains, List.map_cons, List.map_nil]
  rw [hz1, hz2, hz3, hz4, hz5, hz6]
  simp only [List.map_cons, List.map_nil, listMaxR, List.foldl_cons, List.foldl_nil, max_self]
  rw [if_pos trivial]

/-- The counterexample document (Latin letters only) matches no
legal-domain keyword either. -/
lemma c1_identify_doc : identifyLegalDomain (fullText c1Result) = ("unknown", 0) := by
  have hlow : pyLower (fullText c1Result) = fullText c1Result := by decide
  have hz1 : domainScore (fullText c1Result) ["обезщетение", "договор", "собственост",
      "наследство", "семейство", "развод", "алименти", "данъци"] ((1.0 : ℚ) : ℝ) = 0 :=
    domainScore_zero _ _ _ (by decide)
  have hz2 : domainScore (fullText c1Result) ["престъпление", "наказание", "затвор", "глоба",
      "убийство", "кража", "измама", "дрога"] ((1.0 : ℚ) : ℝ) = 0 :=
    domainScore_zero _ _ _ (by decide)
  have hz3 : domainScore (fullText c1Result) ["административен", "лиценз", "разрешение",
      "наредба", "постановление", "министерство", "регулация"] ((0.6 : ℚ) : ℝ) = 0 :=
    domainScore_zero _ _ _ (by decide)
  have hz4 : domainScore (fullText c1Result) ["работа", "трудов", "заплата", "отпуска",
      "уволнение", "договор", "осигуровка", "пенсия"] ((1.0 : ℚ) : ℝ) = 0 :=
    domainScore_zero _ _ _ (by decide)
  have hz5 : domainScore (fullText c1Result) ["съд", "дело", "процес", "съдебен", "апелация",
      "касация", "решение", "призовка"] ((0.9 : ℚ) : ℝ) = 0 :=
    domainScore_zero _ _ _ (by decide)
  have hz6 : domainScore (fullText c1Result) ["медицински", "лечение", "болница", "лекар",
      "здравеопазване", "увреждане", "инвалидност"] ((1.0 : ℚ) : ℝ) = 0 :=
    domainScore_zero _ _ _ (by decide)
  unfold identifyLegalDomain
  dsimp only
  rw [hlow]
  simp only [legalDomains, List.map_cons, List.map_nil]
  rw [hz1, hz2, hz3, hz4, hz5, hz6]
  simp only [List.map_cons, List.map_nil, listMaxR, List.foldl_cons, List.foldl_nil, max_self]
  rw [if_pos trivial]

/-- Both sides unclassified: the legal-context score is the flat 0.3. -/
lemma c1_legalContext :
    calculateLegalContextScore "a b c d" (fullText c1Result) = 0.3 := by
  unfold calculateLegalContextScore
  dsimp only
  rw [c1_identify_query, c1_identify_doc]
  dsimp only
  rw [if_neg (by decide), if_neg (by decide), if_neg (by decide), if_neg (by decide)]

/-- The counterexample URL matches no authority-table domain. -/
lemma c1_domainAuthority : calculateDomainAuthority "http://x.test" = 0.5 := by
  have h1 : pyContains "http://x.test" "ciela.net" = false := by decide
  have h2 : pyContains "http://x.test" "apis.bg" = false := by decide
  have h3 : pyContains "http://x.test" "lakorda.com" = false := by decide
  have h4 : pyContains "http://x.test" "justice.government.bg" = false := by decide
  have h5 : pyContains "http://x.test" "vks.bg" = false := by decide
  have h6 : pyContains "http://x.test" "vss.bg" = false := by decide
  simp [calculateDomainAuthority, domainAuthorityTable, lookupDomainAuthority,
    h1, h2, h3, h4, h5, h6]

/-- **C1 counterexample.** `score_and_rank` can return a result whose
`combined_score` (hence also confidence) is negative: with query
`"a b c d"` and a single result whose 129-token text repeats each term
32 times while `avgDocLength` is 1, the BM25 contribution
`4 · log(2/33) · (89.6/195.08) ≈ −5.1` is not clamped below, and the
combined score is about `−0.028 < 0`. -/
theorem C1_counterexample :
    ∃ r ∈ scoreAndRank "a b c d" [c1Result], r.combined_score < 0 := by
  have hpre : preprocessQueryScorer "a b c d" = "a b c d" := by decide
  have hterms : pySplit "a b c d" = ["a", "b", "c", "d"] := by decide
  have havg : avgDocLength [c1Result] = 1 := by
    have h1 : docTokenCount c1Result = 1 := by decide
    simp [avgDocLength, h1]
  have hsr : scoreAndRank "a b c d" [c1Result] =
      [scoreResult "a b c d" ["a", "b", "c", "d"] 1 c1Result] := by
    unfold scoreAndRank rankSort
    rw [if_neg (by simp)]
    dsimp only
    rw [hpre, hterms, havg]
    simp [List.insertionSort, List.orderedInsert]
  refine ⟨scoreResult "a b c d" ["a", "b", "c", "d"] 1 c1Result,
    by rw [hsr]; exact List.mem_singleton_self _, ?_⟩
  unfold scoreResult
  dsimp only
  have hurl : c1Result.url = "http://x.test" := rfl
  have htitle : c1Result.title = "" := rfl
  rw [hurl, htitle, c1_semantic, c1_legalContext, c1_domainAuthority]
  have hfil : (["a", "b", "c", "d"].filter (fun t => pyContains (pyLower "") t)) = [] := by
    decide
  rw [hfil]
  have hB := c1_bm25
  have hmin : min (calculateBm25Score ["a", "b", "c", "d"] (fullText c1Result) 1 / 10) 1 =
      calculateBm25Score ["a", "b", "c", "d"] (fullText c1Result) 1 / 10 :=
    min_eq_left (by linarith)
  rw [hmin]
  have hq5 : ((0.5 : ℚ) : ℝ) = 0.5 := by norm_num
  rw [hq5]
  have hT : min (0.1 * (([] : List String).length : ℝ)) 0.5 = 0 := by
    norm_num
  rw [hT]
  linarith

/-! ### C7: the gap-filling refinement round -/

/-- **C7.** The refinement round is attempted at most once per search
call, and — whenever phase 1 produced at least one raw result, so that
preliminary scoring runs — it is attempted exactly when the preliminary
average relevancy is below 0.7 or the number of deep-fetched results
(`min maxResults |phase1|`) is below 80% of `maxResults`. -/
theorem C7_refinement_trigger (eo : Option (List String)) (so : String → ℕ → List RawResult)
    (fo : RawResult → String) (ro : Option (List String)) (query : String) (maxResults : ℕ) :
    (runEnhancedSearch eo so fo ro query maxResults).refinementAttempts ≤ 1 ∧
    (phase1Results eo so query maxResults ≠ [] →
      ((runEnhancedSearch eo so fo ro query maxResults).refinementAttempts = 1 ↔
        (runEnhancedSearch eo so fo ro query maxResults).averageRelevancy < 0.7 ∨
          ((min maxResults (phase1Results eo so query maxResults).length : ℕ) : ℝ) <
            (maxResults : ℝ) * 0.8)) := by
  unfold runEnhancedSearch
  by_cases hempty : phase1Results eo so query maxResults = []
  · rw [if_pos hempty]
    exact ⟨by norm_num, fun h => absurd hempty h⟩
  · rw [if_neg hempty]
    dsimp only
    split_ifs with hp ht ht'
    · refine ⟨by norm_num, fun hne => ?_⟩
      dsimp only
      constructor
      · intro h
        rcases ht with h1 | h2
        · exact Or.inl h1
        · right
          rwa [List.length_map, List.length_take] at h2
      · intro h
        rfl
    · refine ⟨by norm_num, fun hne => ?_⟩
      dsimp only
      constructor
      · intro h
        exact absurd h (by norm_num)
      · intro h
        exfalso
        apply ht
        rcases h with h1 | h2
        · exact Or.inl h1
        · right
          rwa [List.length_map, List.length_take]
    · refine ⟨by norm_num, fun hne => ?_⟩
      dsimp only
      constructor
      · intro h
        rcases ht' with h1 | h2
        · exact Or.inl h1
        · right
          rwa [List.length_map, List.length_take] at h2
      · intro h
        rfl
    · refine ⟨by norm_num, fun hne => ?_⟩
      dsimp only
      constructor
      · intro h
        exact absurd h (by norm_num)
      · intro h
        exfalso
        apply ht'
        rcases h with h1 | h2
        · exact Or.inl h1
        · right
          rwa [List.length_map, List.length_take]

/-- Witness for C7 on concrete oracles: one expanded query returning a
single raw result out of `maxResults = 10`. -/
theorem C7_refinement_trigger_witness :
    phase1Results (some ["q1"]) (fun _ _ => [⟨"http://a.test", "t", "b"⟩]) "x" 10 ≠ [] ∧
    ((runEnhancedSearch (some ["q1"]) (fun _ _ => [⟨"http://a.test", "t", "b"⟩])
        (fun _ => "") none "x" 10).refinementAttempts = 1 ↔
      (runEnhancedSearch (some ["q1"]) (fun _ _ => [⟨"http://a.test", "t", "b"⟩])
          (fun _ => "") none "x" 10).averageRelevancy < 0.7 ∨
        ((min 10 (phase1Results (some ["q1"]) (fun _ _ => [⟨"http://a.test", "t", "b"⟩])
            "x" 10).length : ℕ) : ℝ) < (10 : ℝ) * 0.8) :=
  ⟨by decide,
    (C7_refinement_trigger (some ["q1"]) (fun _ _ => [⟨"http://a.test", "t", "b"⟩])
      (fun _ => "") none "x" 10).2 (by decide)⟩

/-- Witness for the amended C2 at a concrete admissible input. -/
theorem C2_amended_witness :
    (["aa"] : List String) ≠ [] ∧ (0 : ℝ) < 2 ∧
    ((pySplit (pyLower "aa bb")).length : ℝ) ≤ 2 ∧
    0 ≤ calculateBm25Score ["aa"] "aa bb" 2 := by
  have hlen : (pySplit (pyLower "aa bb")).length = 2 := by decide
  exact ⟨by simp, by norm_num, by rw [hlen]; norm_num,
    C2_amended ["aa"] "aa bb" 2 (by simp) (by norm_num) (by rw [hlen]; norm_num)⟩

end BgLegal
